import Mathlib

/-!
# WildlifeTracker — verification of the observation ingestion pipeline

A shallow embedding of the Express/Firebase backend of the WildlifeTracker
repository: the `POST /api/observations` and `GET /api/observations`
handlers, the `checkUserRevoked` lookup, the `isPoachingIncident`
classifier, the PIN verification endpoint of `auth.js`, and the two
GeoJSON feature constructions (client capture and FIRMS CSV parsing).

JavaScript strings become `String`; `undefined`-able fields become
`Option`; JS truthiness of a string (`!s` false iff non-empty) becomes
`optTruthy`; external effects (Firestore reads/writes, Firebase Storage
uploads, token minting, base64 decoding, clocks) become explicit
parameters carrying either the produced value or the fact that the
awaited call threw.
-/

namespace WildlifeTracker

/-! ## JS string helpers -/

/-- JS truthiness of a possibly-`undefined` string field: `undefined`,
`null` and `""` are falsy; every other string is truthy. -/
def optTruthy : Option String → Bool
  | none => false
  | some s => !s.isEmpty

/-- `leadsWith sub l` holds when `l` starts with the block `sub`. -/
def leadsWith : List Char → List Char → Bool
  | [], _ => true
  | _ :: _, [] => false
  | a :: as, b :: bs => a == b && leadsWith as bs

/-- `occursIn sub l` holds when `sub` occurs contiguously inside `l`. -/
def occursIn (sub : List Char) : List Char → Bool
  | [] => leadsWith sub []
  | a :: t => leadsWith sub (a :: t) || occursIn sub t

/-- JS `a.includes(b)`: `b` occurs as a contiguous substring of `a`. -/
def strIncludes (a b : String) : Bool :=
  occursIn b.toList a.toList

/-- JS `s.toLowerCase()` (ASCII, character by character). -/
def strLower (s : String) : String :=
  String.mk (s.toList.map Char.toLower)

/-- JS `s.toLowerCase().replace(/[^a-zA-Z0-9]/g, '_')` as used to build
the `email_`-prefixed user-document key. -/
def sanitizeKey (s : String) : String :=
  String.mk ((strLower s).toList.map (fun c => if c.isAlphanum then c else '_'))

/-- JS `name.replace(/[^a-zA-Z0-9.-]/g, '_')` as used to build the
Firebase Storage object name. -/
def sanitizeFileName (s : String) : String :=
  String.mk (s.toList.map (fun c =>
    if c.isAlphanum || c = '.' || c = '-' then c else '_'))

/-- JS `s.split(sep)` on character lists: split at every separator;
`""` splits to `[""]`. -/
def splitOnChar (sep : Char) : List Char → List (List Char)
  | [] => [[]]
  | c :: rest =>
    let r := splitOnChar sep rest
    if c == sep then [] :: r
    else
      match r with
      | [] => [[c]]
      | h :: t => (c :: h) :: t

/-- JS `s.split(sep)` for a one-character separator. -/
def strSplit (s : String) (sep : Char) : List String :=
  (splitOnChar sep s.toList).map String.mk

/-- JS `s.trim()`: strip whitespace from both ends. -/
def strTrim (s : String) : String :=
  String.mk
    (((s.toList.dropWhile Char.isWhitespace).reverse.dropWhile
      Char.isWhitespace).reverse)

/-- JS `email.split('@')[0]`: the part before the first `@`
(the whole string when there is no `@`). -/
def localPart (s : String) : String :=
  match strSplit s '@' with
  | [] => ""
  | p :: _ => p

/-- Keep a request field only when it is truthy, mirroring
`if (field) record.field = field`. -/
def keepTruthy (x : Option String) : Option String :=
  if optTruthy x then x else none

/-! ## Data model

Firestore collections are id-keyed association lists; the observations
router receives `db` as `Option Db` (`none` = Firebase not initialized).
-/

/-- A document of the `users` collection (fields the revocation check
reads; any may be absent). -/
structure UserRecord where
  email : Option String
  uid : Option String
  name : Option String
  status : Option String
  deriving Repr, DecidableEq

/-- A stored observation document, with exactly the fields the POST
handler ever writes. -/
structure Obs where
  category : String
  timestamp : String
  synced : Bool
  user : Option String
  animal : Option String
  pride_name : Option String
  leopard_name : Option String
  animal_activity : Option String
  animal_age : Option String
  incident_type : Option String
  poaching_type : Option String
  poached_animal : Option String
  maintenance_type : Option String
  latitude : Option ℚ
  longitude : Option ℚ
  image_path : Option String
  image_filename : Option String
  deriving Repr, DecidableEq

/-- The Firestore database visible to the observations router. -/
structure Db where
  observations : List (String × Obs)
  users : List (String × UserRecord)
  deriving Repr, DecidableEq

/-! ## checkUserRevoked (part_005 lines 767–833) -/

/-- `db.collection('users').doc(docId).get()` — exact-id lookup. -/
def findDoc (users : List (String × UserRecord)) (docId : String) :
    Option UserRecord :=
  (users.find? (fun p => p.1 == docId)).map (fun p => p.2)

/-- The linear-scan match of `checkUserRevoked`: email/uid/name equality,
or the identifier containing the user's name, or the identifier
containing the email's local part. -/
def scanMatch (id : String) (u : UserRecord) : Bool :=
  u.email == some id || u.uid == some id || u.name == some id ||
  (optTruthy u.name && strIncludes id (u.name.getD "")) ||
  (optTruthy u.email && strIncludes id (localPart (u.email.getD "")))

/-- The three-stage user resolution of `checkUserRevoked`: exact document
id, then the normalised `email_` key (only when the identifier contains
`@`), then a linear scan over all user documents. -/
def resolveUser (users : List (String × UserRecord)) (id : String) :
    Option UserRecord :=
  match findDoc users id with
  | some u => some u
  | none =>
    match (if strIncludes id "@"
           then findDoc users ("email_" ++ sanitizeKey id)
           else none) with
    | some u => some u
    | none => (users.find? (fun p => scanMatch id p.2)).map (fun p => p.2)

/-- `checkUserRevoked` when every Firestore read succeeds: a falsy
identifier or an unresolved identifier allows the submission; a resolved
user is revoked exactly when `status === 'revoked'`. -/
def checkUserRevokedCore (users : List (String × UserRecord))
    (id : String) : Bool :=
  if id.isEmpty then false
  else
    match resolveUser users id with
    | some u => u.status == some "revoked"
    | none => false

/-- `checkUserRevoked` including its `try/catch`: when any awaited
Firestore read throws (`lookupThrows = true`) the function returns
`false` (fail-open). -/
def checkUserRevoked (lookupThrows : Bool)
    (users : List (String × UserRecord)) (id : String) : Bool :=
  if lookupThrows then false else checkUserRevokedCore users id

/-! ## POST /api/observations (part_005 lines 959–1221) -/

/-- The multipart image file produced by multer (`req.file`). -/
structure MultipartFile where
  buffer : List Nat
  mimetype : String
  originalname : String
  deriving Repr, DecidableEq

/-- The destructured request body of the POST handler
(plus `req.file`). Absent fields are `none`. -/
structure PostReq where
  category : Option String
  animal : Option String
  incident_type : Option String
  poaching_type : Option String
  maintenance_type : Option String
  latitude : Option ℚ
  longitude : Option ℚ
  timestamp : Option String
  user : Option String
  pride_name : Option String
  leopard_name : Option String
  animal_activity : Option String
  animal_age : Option String
  poached_animal : Option String
  poaching_image : Option String
  poaching_image_name : Option String
  file : Option MultipartFile
  deriving Repr, DecidableEq

/-- Outcomes of the external calls the POST handler awaits, plus the
two clocks it reads. -/
structure PostEnv where
  /-- `new Date().toISOString()` at the time of the request. -/
  now : String
  /-- `Date.now()` at the time of the request. -/
  nowMs : Nat
  /-- whether a Firestore read inside `checkUserRevoked` throws. -/
  revokeThrows : Bool
  /-- `Buffer.from(·, 'base64')` — the platform's base64 decoder. -/
  b64 : String → List Nat
  /-- outcome of `file.save(...)` on Firebase Storage. -/
  uploadOutcome : Except Unit Unit
  /-- outcome of `db.collection('observations').add(...)`: the
  generated document id, or the fact that the write threw. -/
  addOutcome : Except Unit String

/-- The response together with the post-state of the external stores. -/
structure PostResult where
  status : Nat
  success : Bool
  error : Option String
  message : Option String
  /-- the `data` body field: generated id plus stored record. -/
  data : Option (String × Obs)
  /-- the observations database after the request. -/
  newDb : Option Db
  /-- blob-store object names whose upload was attempted. -/
  blobAttempts : List String
  /-- whether the poaching-notification dispatch ran. -/
  notified : Bool
  deriving Repr, DecidableEq

/-- `validPoachingTypes` of the POST handler (part_005 line 1068). -/
def validPoachingTypes : List String :=
  ["Carcass", "Snare", "Poacher", "Fishing net/equipment"]

/-- The shape-validation gates of the POST handler, in source order;
`some msg` is the `400` error message of the first failing gate. -/
def validateShape (req : PostReq) : Option String :=
  if !optTruthy req.category then
    some "Category is required"
  else if req.category == some "Sighting" && !optTruthy req.animal then
    some "Animal is required for sightings"
  else if req.category == some "Incident" && !optTruthy req.incident_type then
    some "Incident type is required for incidents"
  else if req.category == some "Maintenance" &&
      !optTruthy req.maintenance_type then
    some "Maintenance type is required for maintenance"
  else if req.category == some "Incident" && optTruthy req.incident_type &&
      strIncludes (strLower (req.incident_type.getD "")) "poach" &&
      !(optTruthy req.poaching_type &&
        validPoachingTypes.contains (req.poaching_type.getD "")) then
    some ("Poaching type must be one of: " ++
      String.intercalate ", " validPoachingTypes)
  else
    none

/-- `observationData` as assembled by the handler: base fields, then
category-specific fields, then GPS when both coordinates are present.
Image fields are attached later by the upload step. -/
def buildObsData (req : PostReq) (now : String) : Obs :=
  { category := req.category.getD ""
    timestamp := if optTruthy req.timestamp then req.timestamp.getD "" else now
    synced := true
    user := req.user
    animal :=
      if req.category == some "Sighting" then req.animal else none
    pride_name :=
      if req.category == some "Sighting" then keepTruthy req.pride_name else none
    leopard_name :=
      if req.category == some "Sighting" then keepTruthy req.leopard_name else none
    animal_activity :=
      if req.category == some "Sighting" then keepTruthy req.animal_activity else none
    animal_age :=
      if req.category == some "Sighting" then keepTruthy req.animal_age else none
    incident_type :=
      if req.category == some "Incident" then req.incident_type else none
    poaching_type :=
      if req.category == some "Incident" then keepTruthy req.poaching_type else none
    poached_animal :=
      if req.category == some "Incident" && optTruthy req.poaching_type then
        keepTruthy req.poached_animal
      else none
    maintenance_type :=
      if req.category == some "Maintenance" then req.maintenance_type else none
    latitude :=
      if req.latitude.isSome && req.longitude.isSome then req.latitude else none
    longitude :=
      if req.latitude.isSome && req.longitude.isSome then req.longitude else none
    image_path := none
    image_filename := none }

/-- The `^data:image\/[a-z]+;base64,` strip, on character lists. -/
def stripDataUrlCore (cs : List Char) : Option (List Char) :=
  let pre := "data:image/".toList
  if leadsWith pre cs then
    let rest := cs.drop pre.length
    let letters := rest.takeWhile (fun c => decide ('a' ≤ c) && decide (c ≤ 'z'))
    if letters.isEmpty then none
    else
      let rest2 := rest.drop letters.length
      if leadsWith ";base64,".toList rest2 then
        some (rest2.drop ";base64,".length)
      else none
  else none

/-- JS `s.replace(/^data:image\/[a-z]+;base64,/, '')`. -/
def stripDataUrl (s : String) : String :=
  match stripDataUrlCore s.toList with
  | some cs => String.mk cs
  | none => s

/-- The image-source selection: `req.file` first, otherwise the
base64 JSON fields; `none` when the handler finds no image data that
passes the truthiness check before the upload. -/
def computeImage (b64 : String → List Nat) (req : PostReq) :
    Option (List Nat × String × String) :=
  match req.file with
  | some f =>
    if !f.mimetype.isEmpty && !f.originalname.isEmpty then
      some (f.buffer, f.mimetype, f.originalname)
    else none
  | none =>
    if optTruthy req.poaching_image && optTruthy req.poaching_image_name then
      some (b64 (stripDataUrl (req.poaching_image.getD "")),
            "image/jpeg", req.poaching_image_name.getD "")
    else none

/-- The persistence step and response: `add` throwing reaches the outer
`catch` (`500`, store unchanged); on success the record is stored, the
poaching notification is dispatched (its failure swallowed), and the
response is `201` with the stored record. -/
def finishAdd (env : PostEnv) (d : Db) (o : Obs) (blobs : List String)
    (notifiedPred : Obs → Bool) : PostResult :=
  match env.addOutcome with
  | Except.error _ =>
    { status := 500, success := false
      error := some "Failed to create observation", message := none
      data := none, newDb := some d, blobAttempts := blobs
      notified := false }
  | Except.ok id =>
    { status := 201, success := true, error := none
      message := some "Observation created successfully"
      data := some (id, o)
      newDb := some { d with observations := d.observations ++ [(id, o)] }
      blobAttempts := blobs
      notified := notifiedPred o }

/-- `isPoachingIncident` (notificationServices.js lines 152–164). -/
def isPoachingIncident (o : Obs) : Bool :=
  if o.category != "Incident" then false
  else
    ["poach", "illegal hunting", "snare", "trap"].any
      (fun kw => strIncludes (strLower (o.incident_type.getD "")) kw)

/-- The post-validation tail of the handler: build `observationData`,
attempt the image upload when image data is present (its failure
swallowed), then persist. -/
def afterValidation (env : PostEnv) (d : Db) (req : PostReq) : PostResult :=
  let obsData := buildObsData req env.now
  match computeImage env.b64 req with
  | some (_, _, name) =>
    let fileName := "observations/" ++ toString env.nowMs ++ "_" ++
      sanitizeFileName name
    let obsData2 := match env.uploadOutcome with
      | Except.ok _ =>
        { obsData with image_path := some fileName
                       image_filename := some name }
      | Except.error _ => obsData
    finishAdd env d obsData2 [fileName] isPoachingIncident
  | none => finishAdd env d obsData [] isPoachingIncident

/-- `router.post('/')` of the observations API: availability gate,
revocation gate, shape validation, then the post-validation tail. -/
def postObservation (env : PostEnv) (db : Option Db) (req : PostReq) :
    PostResult :=
  match db with
  | none =>
    { status := 503, success := false
      error := some "Database not available"
      message := some "Firebase not configured - observation storage disabled"
      data := none, newDb := none, blobAttempts := [], notified := false }
  | some d =>
    if optTruthy req.user &&
        checkUserRevoked env.revokeThrows d.users (req.user.getD "") then
      { status := 403, success := false
        error := some "Access denied"
        message := some "Your account has been suspended. Please contact an administrator."
        data := none, newDb := some d, blobAttempts := [], notified := false }
    else
      match validateShape req with
      | some msg =>
        { status := 400, success := false, error := some msg
          message := none, data := none, newDb := some d
          blobAttempts := [], notified := false }
      | none => afterValidation env d req

/-! ## GET /api/observations (part_005 lines 869–956)

The handler builds, per stored document, a fresh JS object field by
field; we model that object as an ordered key/value list so that the
presence or absence of a key (e.g. `image_path`) is observable. -/

/-- A JSON-serialisable JS value as it appears in the map projection. -/
inductive JVal where
  | str (s : String)
  | num (q : ℚ)
  | bool (b : Bool)
  deriving Repr, DecidableEq

/-- Key presence in a projected object. -/
def hasKey (fields : List (String × JVal)) (k : String) : Bool :=
  fields.any (fun p => p.1 == k)

/-- First value stored under a key in a projected object. -/
def lookupVal (fields : List (String × JVal)) (k : String) : Option JVal :=
  (fields.find? (fun p => p.1 == k)).map (fun p => p.2)

/-- Optional string field: present in the object only when defined. -/
def optField (k : String) (v : Option String) : List (String × JVal) :=
  match v with
  | some s => [(k, JVal.str s)]
  | none => []

/-- A field assigned only under `if (cond)`. -/
def condField (c : Bool) (k : String) (v : Option String) :
    List (String × JVal) :=
  if c then optField k v else []

/-- The unconditional fields of the map projection: `id`, `category`,
`timestamp`, `synced`, and `user` when defined. -/
def baseFields (id : String) (o : Obs) : List (String × JVal) :=
  [("id", JVal.str id), ("category", JVal.str o.category),
   ("timestamp", JVal.str o.timestamp), ("synced", JVal.bool o.synced)] ++
  optField "user" o.user

/-- Sighting-specific projected fields. -/
def sightingFields (o : Obs) : List (String × JVal) :=
  if o.category == "Sighting" && optTruthy o.animal then
    optField "animal" o.animal ++
    condField (optTruthy o.pride_name) "pride_name" o.pride_name ++
    condField (optTruthy o.leopard_name) "leopard_name" o.leopard_name ++
    condField (optTruthy o.animal_activity) "animal_activity" o.animal_activity ++
    condField (optTruthy o.animal_age) "animal_age" o.animal_age
  else []

/-- Incident-specific projected fields. -/
def incidentFields (o : Obs) : List (String × JVal) :=
  if o.category == "Incident" && optTruthy o.incident_type then
    optField "incident_type" o.incident_type ++
    condField (optTruthy o.poaching_type) "poaching_type" o.poaching_type ++
    condField (optTruthy o.poaching_type && optTruthy o.poached_animal)
      "poached_animal" o.poached_animal
  else []

/-- Maintenance-specific projected fields. -/
def maintenanceFields (o : Obs) : List (String × JVal) :=
  if o.category == "Maintenance" && optTruthy o.maintenance_type then
    optField "maintenance_type" o.maintenance_type
  else []

/-- Image projection: a truthy stored `image_path` is replaced by
`has_image: true` plus the display filename; the path itself is
never copied into the response. -/
def imageFields (o : Obs) : List (String × JVal) :=
  if optTruthy o.image_path then
    [("has_image", JVal.bool true)] ++ optField "image_filename" o.image_filename
  else []

/-- Coordinates, copied only when both are defined. -/
def coordFields (o : Obs) : List (String × JVal) :=
  match o.latitude, o.longitude with
  | some lat, some lng => [("latitude", JVal.num lat), ("longitude", JVal.num lng)]
  | _, _ => []

/-- The per-document map projection of `router.get('/')`. -/
def projectObs (id : String) (o : Obs) : List (String × JVal) :=
  baseFields id o ++ sightingFields o ++ incidentFields o ++
  maintenanceFields o ++ imageFields o ++ coordFields o

/-- The `GET` response. -/
structure GetResult where
  status : Nat
  success : Bool
  data : List (List (String × JVal))
  count : Nat
  deriving Repr, DecidableEq

/-- Lexicographic `≤` on character lists (Firestore's ordering of
string-valued fields). -/
def listLexLe : List Char → List Char → Bool
  | [], _ => true
  | _ :: _, [] => false
  | a :: as, b :: bs => if a == b then listLexLe as bs else decide (a < b)

/-- Lexicographic `≤` on strings. -/
def strLe (a b : String) : Bool :=
  listLexLe a.toList b.toList

/-- `orderBy('timestamp', 'desc')` of the observations query. -/
def byTsDesc : (String × Obs) → (String × Obs) → Prop :=
  fun a b => strLe b.2.timestamp a.2.timestamp = true

instance : DecidableRel byTsDesc := fun a b =>
  inferInstanceAs (Decidable (strLe b.2.timestamp a.2.timestamp = true))

/-- `router.get('/')`: project every stored document and keep only
those whose projection carries both coordinates; `count` is the length
of the returned array. -/
def getObservations (db : Option Db) : GetResult :=
  match db with
  | none => { status := 503, success := false, data := [], count := 0 }
  | some d =>
    let sorted := d.observations.insertionSort byTsDesc
    let observations :=
      (sorted.map (fun p => projectObs p.1 p.2)).filter
        (fun rec => hasKey rec "latitude" && hasKey rec "longitude")
    { status := 200, success := true, data := observations
      count := observations.length }

/-! ## POST /auth/verify-pin (backend/api/auth.js lines 253–330)

`pinStore` is the in-memory `Map` keyed by lowercased email; `hashPin`
and `admin.auth().createCustomToken` are external and passed in as
parameters (the latter as its outcome). -/

/-- One `pinStore` entry: the salted hash of the issued PIN, the display
name, the issue time (ms) and the failed-attempt counter. -/
structure PinData where
  pin : String
  name : String
  timestamp : Nat
  attempts : Nat
  deriving Repr, DecidableEq

/-- The in-memory PIN store. -/
abbrev PinStore := List (String × PinData)

/-- `pinStore.get(key)`. -/
def pinGet (store : PinStore) (key : String) : Option PinData :=
  ((store : List (String × PinData)).find? (fun p => p.1 == key)).map
    (fun p => p.2)

/-- `pinStore.delete(key)`. -/
def pinDelete (store : PinStore) (key : String) : PinStore :=
  (store : List (String × PinData)).filter (fun p => p.1 != key)

/-- The in-place `storedData.attempts++` mutation. -/
def pinBumpAttempts (store : PinStore) (key : String) : PinStore :=
  (store : List (String × PinData)).map
    (fun p => if p.1 == key then (p.1, { p.2 with attempts := p.2.attempts + 1 }) else p)

/-- The `/auth/verify-pin` response body. -/
structure VerifyResp where
  status : Nat
  success : Bool
  message : Option String
  customToken : Option String
  name : Option String
  deriving Repr, DecidableEq

/-- `router.post('/verify-pin')`: required-field check, store lookup,
15-minute expiry, 5-attempt budget, hash comparison (a mismatch
increments the stored counter), then token minting and one-time
deletion of the consumed entry. Returns the response and the store
after the request. -/
def verifyPin (hashPin : String → String)
    (tokenOutcome : Except Unit String) (store : PinStore)
    (email pin : Option String) (now : Nat) : VerifyResp × PinStore :=
  if !(optTruthy email && optTruthy pin) then
    (⟨400, false, some "Email and PIN are required", none, none⟩, store)
  else
    let emailKey := strLower (email.getD "")
    match pinGet store emailKey with
    | none =>
      (⟨400, false, some "PIN not found or expired. Please request a new PIN.",
        none, none⟩, store)
    | some storedData =>
      if now - storedData.timestamp > 15 * 60 * 1000 then
        (⟨400, false, some "PIN has expired. Please request a new PIN.",
          none, none⟩, pinDelete store emailKey)
      else if storedData.attempts ≥ 5 then
        (⟨400, false, some "Too many failed attempts. Please request a new PIN.",
          none, none⟩, pinDelete store emailKey)
      else if hashPin (pin.getD "") != storedData.pin then
        (⟨400, false,
          some ("Invalid PIN. " ++ toString (5 - (storedData.attempts + 1)) ++
            " attempts remaining."),
          none, none⟩, pinBumpAttempts store emailKey)
      else
        match tokenOutcome with
        | Except.error _ =>
          (⟨500, false, some "Internal server error", none, none⟩, store)
        | Except.ok customToken =>
          (⟨200, true, none, some customToken, some storedData.name⟩,
           pinDelete store emailKey)

/-! ## GeoJSON feature construction

Two construction sites: the Expo client's capture feature
(App.tsx lines 95–107) and the FIRMS CSV parser (fires router,
`parseCSV`). JS `parseFloat` is an external builtin, passed in as a
parameter returning `none` for `NaN`. -/

/-- A GeoJSON Point geometry. -/
structure Geometry where
  type : String
  coordinates : List ℚ
  deriving Repr, DecidableEq

/-- A GeoJSON feature as built by the fire-feed parser: all property
values are CSV cell strings (plus the `sensor` tag). -/
structure FireFeature where
  type : String
  geometry : Geometry
  properties : List (String × String)
  deriving Repr, DecidableEq

/-- The capture position of the Expo client. -/
structure CaptureCoords where
  latitude : ℚ
  longitude : ℚ
  deriving Repr, DecidableEq

/-- The GeoJSON feature the Expo client builds from a captured
position before uploading (App.tsx). -/
def createCaptureFeature (loc : CaptureCoords) : Geometry :=
  { type := "Point"
    coordinates := [loc.longitude, loc.latitude] }

/-- JS object insertion `obj[k] = v`: overwrite in place when the key
exists, append otherwise (insertion order preserved). -/
def objInsert (props : List (String × String)) (k v : String) :
    List (String × String) :=
  if props.any (fun p => p.1 == k) then
    props.map (fun p => if p.1 == k then (k, v) else p)
  else props ++ [(k, v)]

/-- Property lookup on a parsed CSV row object. -/
def propGet (props : List (String × String)) (k : String) : Option String :=
  (props.find? (fun p => p.1 == k)).map (fun p => p.2)

/-- `parseFloat(properties[k])`: `NaN` (modelled `none`) when the key
is absent or the cell does not parse. -/
def getNumProp (pf : String → Option ℚ) (props : List (String × String))
    (k : String) : Option ℚ :=
  match propGet props k with
  | some s => pf s
  | none => none

/-- One iteration of the `parseCSV` row loop: skip rows whose cell
count differs from the header count, build the trimmed property
object, and emit a feature only when both coordinates parse. -/
def parseRow (pf : String → Option ℚ) (headers : List String)
    (sensor : String) (line : String) : Option FireFeature :=
  let values := strSplit line ','
  if values.length != headers.length then none
  else
    let props := (headers.zip values).foldl
      (fun acc hv => objInsert acc (strTrim hv.1) (strTrim hv.2)) []
    match getNumProp pf props "latitude", getNumProp pf props "longitude" with
    | some lat, some lng =>
      some { type := "Feature"
             geometry := { type := "Point", coordinates := [lng, lat] }
             properties := objInsert props "sensor" sensor }
    | _, _ => none

/-- `parseCSV(csvText, sensor)` of the fires router: fewer than two
lines yield no features (`lines.length < 2` is `rest.isEmpty` since
`split` never returns an empty list). -/
def parseCSV (pf : String → Option ℚ) (csvText sensor : String) :
    List FireFeature :=
  match strSplit (strTrim csvText) '\n' with
  | [] => []
  | headerLine :: rest =>
    if rest.isEmpty then []
    else
      let headers := strSplit headerLine ','
      rest.filterMap (parseRow pf headers sensor)

/-! ## Helper lemmas -/

theorem leadsWith_iff (sub l : List Char) :
    leadsWith sub l = true ↔ ∃ post, l = sub ++ post := by
  induction sub generalizing l with
  | nil => simp [leadsWith]
  | cons a as ih =>
    cases l with
    | nil => simp [leadsWith]
    | cons b bs =>
      simp only [leadsWith, Bool.and_eq_true, beq_iff_eq, ih]
      constructor
      · rintro ⟨rfl, post, rfl⟩
        exact ⟨post, rfl⟩
      · rintro ⟨post, h⟩
        injection h with h1 h2
        exact ⟨h1.symm, post, h2⟩

theorem occursIn_iff (sub l : List Char) :
    occursIn sub l = true ↔ ∃ pre post, l = pre ++ sub ++ post := by
  induction l with
  | nil =>
    simp only [occursIn, leadsWith_iff]
    constructor
    · rintro ⟨post, h⟩
      exact ⟨[], post, h⟩
    · rintro ⟨pre, post, h⟩
      rcases List.append_eq_nil.mp (List.append_eq_nil.mp h.symm).1 with ⟨h1, h2⟩
      exact ⟨post, by simp [h1, h2] at h ⊢; exact h⟩
  | cons a t ih =>
    simp only [occursIn, Bool.or_eq_true, leadsWith_iff, ih]
    constructor
    · rintro (⟨post, h⟩ | ⟨pre, post, h⟩)
      · exact ⟨[], post, by simpa using h⟩
      · exact ⟨a :: pre, post, by simp [h]⟩
    · rintro ⟨pre, post, h⟩
      cases pre with
      | nil => exact Or.inl ⟨post, by simpa using h⟩
      | cons p ps =>
        injection h with _ h2
        exact Or.inr ⟨ps, post, h2⟩

theorem strIncludes_iff (a b : String) :
    strIncludes a b = true ↔ ∃ pre post, a.toList = pre ++ b.toList ++ post := by
  simpa [strIncludes] using occursIn_iff b.toList a.toList

theorem hasKey_nil (k : String) : hasKey [] k = false := rfl

theorem hasKey_cons (k' : String) (v : JVal) (rest : List (String × JVal))
    (k : String) :
    hasKey ((k', v) :: rest) k = ((k' == k) || hasKey rest k) := by
  simp [hasKey]

theorem hasKey_append (a b : List (String × JVal)) (k : String) :
    hasKey (a ++ b) k = (hasKey a k || hasKey b k) := by
  simp [hasKey, List.any_append]

theorem hasKey_optField (k' : String) (v : Option String) (k : String) :
    hasKey (optField k' v) k = (v.isSome && (k' == k)) := by
  cases v <;> simp [optField, hasKey]

theorem hasKey_condField (c : Bool) (k' : String) (v : Option String)
    (k : String) :
    hasKey (condField c k' v) k = (c && v.isSome && (k' == k)) := by
  cases c <;> simp [condField, hasKey_optField, hasKey_nil, Bool.and_assoc]

theorem hasKey_coordFields (o : Obs) (k : String) :
    hasKey (coordFields o) k =
      (o.latitude.isSome && o.longitude.isSome &&
        (("latitude" == k) || ("longitude" == k))) := by
  unfold coordFields
  cases o.latitude <;> cases o.longitude <;> simp [hasKey]

/-- Keys the map projection can ever emit, by segment. -/
theorem hasKey_baseFields (id : String) (o : Obs) (k : String) :
    hasKey (baseFields id o) k =
      (("id" == k) || ("category" == k) || ("timestamp" == k) ||
       ("synced" == k) || (o.user.isSome && ("user" == k))) := by
  simp [baseFields, hasKey_append, hasKey_optField, hasKey_cons, hasKey_nil,
    Bool.or_assoc]

theorem hasKey_sightingFields (o : Obs) (k : String) :
    hasKey (sightingFields o) k = true →
      k = "animal" ∨ k = "pride_name" ∨ k = "leopard_name" ∨
      k = "animal_activity" ∨ k = "animal_age" := by
  unfold sightingFields
  split
  · simp only [hasKey_append, hasKey_optField, hasKey_condField,
      Bool.or_eq_true, Bool.and_eq_true, beq_iff_eq]
    rintro ((((⟨-, h⟩ | ⟨-, h⟩) | ⟨-, h⟩) | ⟨-, h⟩) | ⟨-, h⟩) <;> simp [h]
  · simp [hasKey]

theorem hasKey_incidentFields (o : Obs) (k : String) :
    hasKey (incidentFields o) k = true →
      k = "incident_type" ∨ k = "poaching_type" ∨ k = "poached_animal" := by
  unfold incidentFields
  split
  · simp only [hasKey_append, hasKey_optField, hasKey_condField,
      Bool.or_eq_true, Bool.and_eq_true, beq_iff_eq]
    rintro ((⟨-, h⟩ | ⟨-, h⟩) | ⟨-, h⟩) <;> simp [h]
  · simp [hasKey]

theorem hasKey_maintenanceFields (o : Obs) (k : String) :
    hasKey (maintenanceFields o) k = true → k = "maintenance_type" := by
  unfold maintenanceFields
  split
  · simp only [hasKey_optField, Bool.and_eq_true, beq_iff_eq]
    rintro ⟨-, h⟩
    exact h.symm
  · simp [hasKey]

theorem hasKey_imageFields (o : Obs) (k : String) :
    hasKey (imageFields o) k = true →
      k = "has_image" ∨ k = "image_filename" := by
  unfold imageFields
  split
  · simp only [List.singleton_append, hasKey_cons, hasKey_optField,
      Bool.or_eq_true, Bool.and_eq_true, beq_iff_eq]
    rintro (h | ⟨-, h⟩) <;> simp [h.symm]
  · simp [hasKey]

theorem hasKey_sightingFields_eq_false (o : Obs) (k : String)
    (hk : k = "animal" → False) (hk2 : k = "pride_name" → False)
    (hk3 : k = "leopard_name" → False) (hk4 : k = "animal_activity" → False)
    (hk5 : k = "animal_age" → False) :
    hasKey (sightingFields o) k = false := by
  cases h : hasKey (sightingFields o) k with
  | false => rfl
  | true =>
    rcases hasKey_sightingFields o k h with h1 | h1 | h1 | h1 | h1
    · exact absurd h1 hk
    · exact absurd h1 hk2
    · exact absurd h1 hk3
    · exact absurd h1 hk4
    · exact absurd h1 hk5

theorem hasKey_incidentFields_eq_false (o : Obs) (k : String)
    (hk : k = "incident_type" → False) (hk2 : k = "poaching_type" → False)
    (hk3 : k = "poached_animal" → False) :
    hasKey (incidentFields o) k = false := by
  cases h : hasKey (incidentFields o) k with
  | false => rfl
  | true =>
    rcases hasKey_incidentFields o k h with h1 | h1 | h1
    · exact absurd h1 hk
    · exact absurd h1 hk2
    · exact absurd h1 hk3

theorem hasKey_maintenanceFields_eq_false (o : Obs) (k : String)
    (hk : k = "maintenance_type" → False) :
    hasKey (maintenanceFields o) k = false := by
  cases h : hasKey (maintenanceFields o) k with
  | false => rfl
  | true => exact absurd (hasKey_maintenanceFields o k h) hk

theorem hasKey_imageFields_eq_false (o : Obs) (k : String)
    (hk : k = "has_image" → False) (hk2 : k = "image_filename" → False) :
    hasKey (imageFields o) k = false := by
  cases h : hasKey (imageFields o) k with
  | false => rfl
  | true =>
    rcases hasKey_imageFields o k h with h1 | h1
    · exact absurd h1 hk
    · exact absurd h1 hk2

/-- The projected object carries `latitude` exactly when the stored
document carries both coordinates. -/
theorem hasKey_projectObs_lat (id : String) (o : Obs) :
    hasKey (projectObs id o) "latitude" =
      (o.latitude.isSome && o.longitude.isSome) := by
  unfold projectObs
  simp [hasKey_append, hasKey_baseFields, hasKey_coordFields,
    hasKey_sightingFields_eq_false o "latitude" (by decide) (by decide)
      (by decide) (by decide) (by decide),
    hasKey_incidentFields_eq_false o "latitude" (by decide) (by decide)
      (by decide),
    hasKey_maintenanceFields_eq_false o "latitude" (by decide),
    hasKey_imageFields_eq_false o "latitude" (by decide) (by decide)]

/-- The projected object carries `longitude` exactly when the stored
document carries both coordinates. -/
theorem hasKey_projectObs_lng (id : String) (o : Obs) :
    hasKey (projectObs id o) "longitude" =
      (o.latitude.isSome && o.longitude.isSome) := by
  unfold projectObs
  simp [hasKey_append, hasKey_baseFields, hasKey_coordFields,
    hasKey_sightingFields_eq_false o "longitude" (by decide) (by decide)
      (by decide) (by decide) (by decide),
    hasKey_incidentFields_eq_false o "longitude" (by decide) (by decide)
      (by decide),
    hasKey_maintenanceFields_eq_false o "longitude" (by decide),
    hasKey_imageFields_eq_false o "longitude" (by decide) (by decide)]

/-- The projected object never carries the raw storage path. -/
theorem hasKey_projectObs_image_path (id : String) (o : Obs) :
    hasKey (projectObs id o) "image_path" = false := by
  unfold projectObs
  simp [hasKey_append, hasKey_baseFields, hasKey_coordFields,
    hasKey_sightingFields_eq_false o "image_path" (by decide) (by decide)
      (by decide) (by decide) (by decide),
    hasKey_incidentFields_eq_false o "image_path" (by decide) (by decide)
      (by decide),
    hasKey_maintenanceFields_eq_false o "image_path" (by decide),
    hasKey_imageFields_eq_false o "image_path" (by decide) (by decide)]

theorem buildObsData_image_path (req : PostReq) (now : String) :
    (buildObsData req now).image_path = none := rfl

theorem buildObsData_image_filename (req : PostReq) (now : String) :
    (buildObsData req now).image_filename = none := rfl

theorem finishAdd_status (env : PostEnv) (d : Db) (o : Obs)
    (blobs : List String) (pred : Obs → Bool) :
    (finishAdd env d o blobs pred).status = 201 ∨
    (finishAdd env d o blobs pred).status = 500 := by
  cases h : env.addOutcome <;> simp [finishAdd, h]

theorem finishAdd_addOk (env : PostEnv) (d : Db) (o : Obs)
    (blobs : List String) (pred : Obs → Bool) (id : String)
    (h : env.addOutcome = Except.ok id) :
    finishAdd env d o blobs pred =
      { status := 201, success := true, error := none
        message := some "Observation created successfully"
        data := some (id, o)
        newDb := some { d with observations := d.observations ++ [(id, o)] }
        blobAttempts := blobs, notified := pred o } := by
  simp [finishAdd, h]

theorem afterValidation_status (env : PostEnv) (d : Db) (req : PostReq) :
    (afterValidation env d req).status = 201 ∨
    (afterValidation env d req).status = 500 := by
  unfold afterValidation
  cases h : computeImage env.b64 req with
  | none => exact finishAdd_status env d _ _ _
  | some t =>
    obtain ⟨buf, mime, name⟩ := t
    cases hu : env.uploadOutcome <;> simp only [hu] <;>
      exact finishAdd_status env d _ _ _

theorem afterValidation_addOk (env : PostEnv) (d : Db) (req : PostReq)
    (id : String) (h : env.addOutcome = Except.ok id) :
    (afterValidation env d req).status = 201 := by
  unfold afterValidation
  cases hi : computeImage env.b64 req with
  | none => simp [finishAdd_addOk env d _ _ _ id h]
  | some t =>
    obtain ⟨buf, mime, name⟩ := t
    cases hu : env.uploadOutcome <;> simp only [hu] <;>
      simp [finishAdd_addOk env d _ _ _ id h]

theorem afterValidation_uploadFail (env : PostEnv) (d : Db) (req : PostReq)
    (buf : List Nat) (mime name : String)
    (himg : computeImage env.b64 req = some (buf, mime, name))
    (hup : env.uploadOutcome = Except.error ()) :
    afterValidation env d req =
      finishAdd env d (buildObsData req env.now)
        ["observations/" ++ toString env.nowMs ++ "_" ++ sanitizeFileName name]
        isPoachingIncident := by
  unfold afterValidation
  rw [himg]
  simp only [hup]

theorem postObservation_dbNone (env : PostEnv) (req : PostReq) :
    postObservation env none req =
      { status := 503, success := false
        error := some "Database not available"
        message := some "Firebase not configured - observation storage disabled"
        data := none, newDb := none, blobAttempts := [], notified := false } :=
  rfl

theorem postObservation_revoked (env : PostEnv) (d : Db) (req : PostReq)
    (h1 : optTruthy req.user = true)
    (h2 : checkUserRevoked env.revokeThrows d.users (req.user.getD "") = true) :
    postObservation env (some d) req =
      { status := 403, success := false
        error := some "Access denied"
        message := some "Your account has been suspended. Please contact an administrator."
        data := none, newDb := some d, blobAttempts := [], notified := false } := by
  simp [postObservation, h1, h2]

theorem postObservation_badShape (env : PostEnv) (d : Db) (req : PostReq)
    (msg : String)
    (h : (optTruthy req.user &&
      checkUserRevoked env.revokeThrows d.users (req.user.getD "")) = false)
    (hv : validateShape req = some msg) :
    postObservation env (some d) req =
      { status := 400, success := false, error := some msg, message := none
        data := none, newDb := some d, blobAttempts := [], notified := false } := by
  simp [postObservation, h, hv]

theorem postObservation_validated (env : PostEnv) (d : Db) (req : PostReq)
    (h : (optTruthy req.user &&
      checkUserRevoked env.revokeThrows d.users (req.user.getD "")) = false)
    (hv : validateShape req = none) :
    postObservation env (some d) req = afterValidation env d req := by
  simp [postObservation, h, hv]

theorem validateShape_sighting_missing (req : PostReq)
    (hc : req.category = some "Sighting")
    (ha : optTruthy req.animal = false) :
    validateShape req = some "Animal is required for sightings" := by
  simp [validateShape, hc, ha, show optTruthy (some "Sighting") = true from rfl]

theorem validateShape_incident_missing (req : PostReq)
    (hc : req.category = some "Incident")
    (ha : optTruthy req.incident_type = false) :
    validateShape req = some "Incident type is required for incidents" := by
  simp [validateShape, hc, ha, show optTruthy (some "Incident") = true from rfl]

theorem validateShape_maintenance_missing (req : PostReq)
    (hc : req.category = some "Maintenance")
    (ha : optTruthy req.maintenance_type = false) :
    validateShape req = some "Maintenance type is required for maintenance" := by
  simp [validateShape, hc, ha, show optTruthy (some "Maintenance") = true from rfl]

theorem validateShape_poaching_missing (req : PostReq)
    (hc : req.category = some "Incident")
    (hi : optTruthy req.incident_type = true)
    (hp : strIncludes (strLower (req.incident_type.getD "")) "poach" = true)
    (hbad : optTruthy req.poaching_type = false ∨
      validPoachingTypes.contains (req.poaching_type.getD "") = false) :
    validateShape req =
      some "Poaching type must be one of: Carcass, Snare, Poacher, Fishing net/equipment" := by
  have hmsg : "Poaching type must be one of: " ++
      String.intercalate ", " validPoachingTypes =
      "Poaching type must be one of: Carcass, Snare, Poacher, Fishing net/equipment" := rfl
  rcases hbad with hb | hb
  · simp [validateShape, hc, hi, hp, hb, hmsg,
      show optTruthy (some "Incident") = true from rfl]
  · have hb2 : req.poaching_type.getD "" ∉ validPoachingTypes := by
      simpa using hb
    simp [validateShape, hc, hi, hp, hb2, hmsg,
      show optTruthy (some "Incident") = true from rfl]

theorem validateShape_poaching_ok (req : PostReq) (v : String)
    (hc : req.category = some "Incident")
    (hi : optTruthy req.incident_type = true)
    (hv : req.poaching_type = some v)
    (hmem : v ∈ validPoachingTypes) :
    validateShape req = none := by
  have hptv : optTruthy req.poaching_type = true := by
    rw [hv]
    simp [validPoachingTypes] at hmem
    rcases hmem with rfl | rfl | rfl | rfl <;> rfl
  have hmem2 : req.poaching_type.getD "" ∈ validPoachingTypes := by
    rw [hv]
    simpa using hmem
  simp [validateShape, hc, hi, hptv, hmem2,
    show optTruthy (some "Incident") = true from rfl]

/-! ## Fixtures for witnesses -/

/-- A request body with every field absent. -/
def emptyReq : PostReq :=
  { category := none, animal := none, incident_type := none
    poaching_type := none, maintenance_type := none, latitude := none
    longitude := none, timestamp := none, user := none, pride_name := none
    leopard_name := none, animal_activity := none, animal_age := none
    poached_animal := none, poaching_image := none
    poaching_image_name := none, file := none }

/-- A benign environment: all external calls succeed. -/
def env0 : PostEnv :=
  { now := "2026-01-01T00:00:00.000Z", nowMs := 1700000000000
    revokeThrows := false, b64 := fun _ => []
    uploadOutcome := Except.ok (), addOutcome := Except.ok "doc1" }

/-- An empty database. -/
def db0 : Db := { observations := [], users := [] }

/-- A database whose only user is revoked. -/
def dbRevoked : Db :=
  { observations := []
    users := [("u1", { email := none, uid := none, name := none
                       status := some "revoked" })] }

/-- A fully valid sighting submitted by user `u1`. -/
def reqSighting : PostReq :=
  { emptyReq with category := some "Sighting", animal := some "Lion"
                  user := some "u1" }

/-- A poaching incident with a valid `poaching_type`. -/
def reqPoaching : PostReq :=
  { emptyReq with category := some "Incident"
                  incident_type := some "Poaching - Snare"
                  poaching_type := some "Snare" }

/-- A valid sighting carrying a base64 image. -/
def reqWithImage : PostReq :=
  { emptyReq with category := some "Sighting", animal := some "Lion"
                  poaching_image := some "QUJD"
                  poaching_image_name := some "img.jpg" }

/-! ## Claims -/

/-- C1: every POST /api/observations request that passes the
availability and revocation gates but whose payload is a `Sighting`
without `animal`, an `Incident` without `incident_type`, or a
`Maintenance` without `maintenance_type`, is answered with status 400
and a structured error, and no observation record is written to the
store. -/
theorem c1_category_invariant_rejected (env : PostEnv) (d : Db)
    (req : PostReq)
    (hgate : optTruthy req.user = false ∨
      checkUserRevoked env.revokeThrows d.users (req.user.getD "") = false)
    (hshape :
      (req.category = some "Sighting" ∧ optTruthy req.animal = false) ∨
      (req.category = some "Incident" ∧ optTruthy req.incident_type = false) ∨
      (req.category = some "Maintenance" ∧
        optTruthy req.maintenance_type = false)) :
    (postObservation env (some d) req).status = 400 ∧
    (postObservation env (some d) req).error.isSome = true ∧
    (postObservation env (some d) req).newDb = some d := by
  have h : (optTruthy req.user &&
      checkUserRevoked env.revokeThrows d.users (req.user.getD "")) = false := by
    rcases hgate with h | h <;> simp [h]
  rcases hshape with ⟨hc, ha⟩ | ⟨hc, ha⟩ | ⟨hc, ha⟩
  · rw [postObservation_badShape env d req _ h
      (validateShape_sighting_missing req hc ha)]
    exact ⟨rfl, rfl, rfl⟩
  · rw [postObservation_badShape env d req _ h
      (validateShape_incident_missing req hc ha)]
    exact ⟨rfl, rfl, rfl⟩
  · rw [postObservation_badShape env d req _ h
      (validateShape_maintenance_missing req hc ha)]
    exact ⟨rfl, rfl, rfl⟩

/-- Witness for C1 at a concrete `Sighting` without `animal`. -/
theorem c1_witness :
    (postObservation env0 (some db0)
      { emptyReq with category := some "Sighting" }).status = 400 ∧
    (postObservation env0 (some db0)
      { emptyReq with category := some "Sighting" }).error.isSome = true ∧
    (postObservation env0 (some db0)
      { emptyReq with category := some "Sighting" }).newDb = some db0 :=
  c1_category_invariant_rejected env0 db0
    { emptyReq with category := some "Sighting" }
    (Or.inl rfl) (Or.inl ⟨rfl, rfl⟩)

/-- C2: for an `Incident` whose `incident_type` contains the substring
"poach" (case-insensitively), an absent or invalid `poaching_type` is
rejected with 400 and nothing is stored, while a `poaching_type` among
the four valid values passes shape validation and (when the store write
succeeds) yields 201. -/
theorem c2_poaching_type_gate (env : PostEnv) (d : Db) (req : PostReq)
    (hgate : optTruthy req.user = false ∨
      checkUserRevoked env.revokeThrows d.users (req.user.getD "") = false)
    (hc : req.category = some "Incident")
    (hi : optTruthy req.incident_type = true)
    (hp : strIncludes (strLower (req.incident_type.getD "")) "poach" = true) :
    ((optTruthy req.poaching_type = false ∨
        validPoachingTypes.contains (req.poaching_type.getD "") = false) →
      (postObservation env (some d) req).status = 400 ∧
      (postObservation env (some d) req).error =
        some "Poaching type must be one of: Carcass, Snare, Poacher, Fishing net/equipment" ∧
      (postObservation env (some d) req).newDb = some d) ∧
    (∀ v, req.poaching_type = some v → v ∈ validPoachingTypes →
      validateShape req = none ∧
      ∀ id, env.addOutcome = Except.ok id →
        (postObservation env (some d) req).status = 201) := by
  have h : (optTruthy req.user &&
      checkUserRevoked env.revokeThrows d.users (req.user.getD "")) = false := by
    rcases hgate with h | h <;> simp [h]
  constructor
  · intro hbad
    rw [postObservation_badShape env d req _ h
      (validateShape_poaching_missing req hc hi hp hbad)]
    exact ⟨rfl, rfl, rfl⟩
  · intro v hv hmem
    have hnone := validateShape_poaching_ok req v hc hi hv hmem
    refine ⟨hnone, fun id hid => ?_⟩
    rw [postObservation_validated env d req h hnone]
    exact afterValidation_addOk env d req id hid

/-- Witness for C2: a concrete poaching incident with `poaching_type`
"Snare" is accepted with 201. -/
theorem c2_witness :
    (postObservation env0 (some db0) reqPoaching).status = 201 :=
  ((c2_poaching_type_gate env0 db0 reqPoaching (Or.inl rfl) rfl rfl
    (by decide)).2 "Snare" rfl (by decide)).2 "doc1" rfl

/-- C5: when a request passes all gates and carries image data, a
failing blob-storage upload does not fail the submission: the record is
still persisted (appended to the store under the generated id), the
response is 201, and the stored record carries neither `image_path` nor
`image_filename`. -/
theorem c5_image_failure_still_persists (env : PostEnv) (d : Db)
    (req : PostReq) (buf : List Nat) (mime name id : String)
    (hgate : optTruthy req.user = false ∨
      checkUserRevoked env.revokeThrows d.users (req.user.getD "") = false)
    (hshape : validateShape req = none)
    (himg : computeImage env.b64 req = some (buf, mime, name))
    (hup : env.uploadOutcome = Except.error ())
    (hadd : env.addOutcome = Except.ok id) :
    (postObservation env (some d) req).status = 201 ∧
    (postObservation env (some d) req).data =
      some (id, buildObsData req env.now) ∧
    (buildObsData req env.now).image_path = none ∧
    (buildObsData req env.now).image_filename = none ∧
    (postObservation env (some d) req).newDb =
      some { d with observations :=
        d.observations ++ [(id, buildObsData req env.now)] } := by
  have h : (optTruthy req.user &&
      checkUserRevoked env.revokeThrows d.users (req.user.getD "")) = false := by
    rcases hgate with h | h <;> simp [h]
  rw [postObservation_validated env d req h hshape,
      afterValidation_uploadFail env d req buf mime name himg hup,
      finishAdd_addOk env d _ _ _ id hadd]
  exact ⟨rfl, rfl, rfl, rfl, rfl⟩

/-- Witness for C5 at a concrete sighting with a base64 image and a
failing upload. -/
theorem c5_witness :
    (postObservation { env0 with uploadOutcome := Except.error () }
      (some db0) reqWithImage).status = 201 ∧
    (postObservation { env0 with uploadOutcome := Except.error () }
      (some db0) reqWithImage).data =
      some ("doc1", buildObsData reqWithImage
        { env0 with uploadOutcome := Except.error () }.now) ∧
    (buildObsData reqWithImage
      { env0 with uploadOutcome := Except.error () }.now).image_path = none ∧
    (buildObsData reqWithImage
      { env0 with uploadOutcome := Except.error () }.now).image_filename = none ∧
    (postObservation { env0 with uploadOutcome := Except.error () }
      (some db0) reqWithImage).newDb =
      some { db0 with observations :=
        db0.observations ++ [("doc1", buildObsData reqWithImage
          { env0 with uploadOutcome := Except.error () }.now)] } :=
  c5_image_failure_still_persists
    { env0 with uploadOutcome := Except.error () } db0 reqWithImage
    [] "image/jpeg" "img.jpg" "doc1"
    (Or.inl rfl) rfl rfl rfl rfl

/-- C7: the POST gates run in order — availability (503), revocation
(403), shape validation (400) — and each failure short-circuits: the
returned status is that gate's, the observation store is unchanged, and
no blob-store upload is attempted. -/
theorem c7_gate_order_short_circuit (env : PostEnv) (req : PostReq) :
    ((postObservation env none req).status = 503 ∧
     (postObservation env none req).newDb = none ∧
     (postObservation env none req).blobAttempts = []) ∧
    (∀ d, optTruthy req.user = true →
      checkUserRevoked env.revokeThrows d.users (req.user.getD "") = true →
      (postObservation env (some d) req).status = 403 ∧
      (postObservation env (some d) req).newDb = some d ∧
      (postObservation env (some d) req).blobAttempts = []) ∧
    (∀ d msg, (optTruthy req.user &&
        checkUserRevoked env.revokeThrows d.users (req.user.getD "")) = false →
      validateShape req = some msg →
      (postObservation env (some d) req).status = 400 ∧
      (postObservation env (some d) req).newDb = some d ∧
      (postObservation env (some d) req).blobAttempts = []) := by
  refine ⟨⟨rfl, rfl, rfl⟩, fun d h1 h2 => ?_, fun d msg h hv => ?_⟩
  · rw [postObservation_revoked env d req h1 h2]
    exact ⟨rfl, rfl, rfl⟩
  · rw [postObservation_badShape env d req msg h hv]
    exact ⟨rfl, rfl, rfl⟩

/-- Witness for C7: a revoked user's otherwise-valid sighting is turned
away with 403, leaving the store untouched and the blob store unused. -/
theorem c7_witness :
    (postObservation env0 (some dbRevoked) reqSighting).status = 403 ∧
    (postObservation env0 (some dbRevoked) reqSighting).newDb =
      some dbRevoked ∧
    (postObservation env0 (some dbRevoked) reqSighting).blobAttempts = [] :=
  (c7_gate_order_short_circuit env0 reqSighting).2.1 dbRevoked rfl (by decide)

/-- C3: a POST whose user identifier resolves (exact key, normalised
`email_` key, or linear scan) to a `revoked` user is answered 403 with
nothing persisted, regardless of the rest of the payload; an identifier
resolving to no user, or a lookup that throws, lets the request through
the revocation gate (fail-open), so the response is never 403. -/
theorem c3_revocation_fail_open (env : PostEnv) (d : Db) (req : PostReq)
    (u : String) (hu : req.user = some u) (hne : u.isEmpty = false) :
    (env.revokeThrows = false →
      ∀ rec, resolveUser d.users u = some rec →
        rec.status = some "revoked" →
        (postObservation env (some d) req).status = 403 ∧
        (postObservation env (some d) req).newDb = some d ∧
        (postObservation env (some d) req).data = none ∧
        (postObservation env (some d) req).blobAttempts = []) ∧
    (env.revokeThrows = false → resolveUser d.users u = none →
      (postObservation env (some d) req).status ≠ 403) ∧
    (env.revokeThrows = true →
      (postObservation env (some d) req).status ≠ 403) := by
  have htruthy : optTruthy req.user = true := by
    rw [hu]
    simp [optTruthy, hne]
  have hgetD : req.user.getD "" = u := by rw [hu]; rfl
  have hne403 : ∀ h : (optTruthy req.user &&
      checkUserRevoked env.revokeThrows d.users (req.user.getD "")) = false,
      (postObservation env (some d) req).status ≠ 403 := by
    intro h
    cases hv : validateShape req with
    | some msg =>
      rw [postObservation_badShape env d req msg h hv]
      simp
    | none =>
      rw [postObservation_validated env d req h hv]
      rcases afterValidation_status env d req with h2 | h2 <;> simp [h2]
  refine ⟨?_, ?_, ?_⟩
  · intro hth rec hres hrev
    have hck : checkUserRevoked env.revokeThrows d.users
        (req.user.getD "") = true := by
      rw [hgetD, hth]
      simp [checkUserRevoked, checkUserRevokedCore, hne, hres, hrev]
    rw [postObservation_revoked env d req htruthy hck]
    exact ⟨rfl, rfl, rfl, rfl⟩
  · intro hth hres
    have hck : checkUserRevoked env.revokeThrows d.users
        (req.user.getD "") = false := by
      rw [hgetD, hth]
      simp [checkUserRevoked, checkUserRevokedCore, hres]
    exact hne403 (by simp [hck])
  · intro hth
    have hck : checkUserRevoked env.revokeThrows d.users
        (req.user.getD "") = false := by
      rw [hth]
      simp [checkUserRevoked]
    exact hne403 (by simp [hck])

/-- Witness for C3: user `u1` of the revoked-user store submits a valid
sighting and is answered 403 with nothing persisted. -/
theorem c3_witness :
    (postObservation env0 (some dbRevoked) reqSighting).status = 403 ∧
    (postObservation env0 (some dbRevoked) reqSighting).newDb =
      some dbRevoked ∧
    (postObservation env0 (some dbRevoked) reqSighting).data = none ∧
    (postObservation env0 (some dbRevoked) reqSighting).blobAttempts = [] :=
  (c3_revocation_fail_open env0 dbRevoked reqSighting "u1" rfl rfl).1
    rfl { email := none, uid := none, name := none, status := some "revoked" }
    rfl rfl

theorem lookupVal_none_of_hasKey_false (l : List (String × JVal))
    (k : String) (h : hasKey l k = false) : lookupVal l k = none := by
  have hf : l.find? (fun p => p.1 == k) = none := by
    rw [List.find?_eq_none]
    intro x hx hbeq
    have htrue : hasKey l k = true := by
      unfold hasKey
      rw [List.any_eq_true]
      exact ⟨x, hx, hbeq⟩
    rw [htrue] at h
    cases h
  simp [lookupVal, hf]

theorem lookupVal_append_left_none (a b : List (String × JVal))
    (k : String) (h : hasKey a k = false) :
    lookupVal (a ++ b) k = lookupVal b k := by
  have hf : a.find? (fun p => p.1 == k) = none := by
    rw [List.find?_eq_none]
    intro x hx hbeq
    have htrue : hasKey a k = true := by
      unfold hasKey
      rw [List.any_eq_true]
      exact ⟨x, hx, hbeq⟩
    rw [htrue] at h
    cases h
  simp [lookupVal, List.find?_append, hf]

theorem lookupVal_cons (k' : String) (v : JVal)
    (rest : List (String × JVal)) (k : String) :
    lookupVal ((k', v) :: rest) k =
      if (k' == k) then some v else lookupVal rest k := by
  by_cases h : (k' == k) = true <;> simp [lookupVal, List.find?, h]

/-- C4: every record the map read returns carries both coordinates, the
reported count equals the length of the returned array, and exactly the
coordinate-bearing stored observations are returned — those lacking a
coordinate are excluded while remaining in the store. -/
theorem c4_map_read_location_only (d : Db) :
    (∀ rec ∈ (getObservations (some d)).data,
      hasKey rec "latitude" = true ∧ hasKey rec "longitude" = true) ∧
    (getObservations (some d)).count =
      (getObservations (some d)).data.length ∧
    (getObservations (some d)).data.length =
      (d.observations.filter
        (fun p => p.2.latitude.isSome && p.2.longitude.isSome)).length := by
  refine ⟨?_, rfl, ?_⟩
  · intro rec hrec
    simp only [getObservations] at hrec
    have h2 := (List.mem_filter.mp hrec).2
    simp only [Bool.and_eq_true] at h2
    exact h2
  · simp only [getObservations]
    rw [List.filter_map, List.length_map]
    have hperm := List.perm_insertionSort byTsDesc d.observations
    rw [(hperm.filter _).length_eq]
    congr 1
    apply List.filter_congr
    intro p hp
    simp only [Function.comp_apply, hasKey_projectObs_lat,
      hasKey_projectObs_lng, Bool.and_self]

/-- C10: the map read never exposes the raw storage field `image_path`;
a stored observation with an image is projected to `has_image: true`
plus the display `image_filename` only. -/
theorem c10_image_minimization (d : Db) :
    (∀ rec ∈ (getObservations (some d)).data,
      hasKey rec "image_path" = false) ∧
    (∀ id o, optTruthy o.image_path = true →
      hasKey (projectObs id o) "image_path" = false ∧
      lookupVal (projectObs id o) "has_image" = some (JVal.bool true) ∧
      lookupVal (projectObs id o) "image_filename" =
        o.image_filename.map JVal.str) := by
  constructor
  · intro rec hrec
    simp only [getObservations] at hrec
    have h1 := (List.mem_filter.mp hrec).1
    obtain ⟨p, hp, rfl⟩ := List.mem_map.mp h1
    exact hasKey_projectObs_image_path p.1 p.2
  · intro id o himg
    have hb : hasKey (baseFields id o) "has_image" = false := by
      simp [hasKey_baseFields]
    have hs : hasKey (sightingFields o) "has_image" = false :=
      hasKey_sightingFields_eq_false o _ (by decide) (by decide) (by decide)
        (by decide) (by decide)
    have hi : hasKey (incidentFields o) "has_image" = false :=
      hasKey_incidentFields_eq_false o _ (by decide) (by decide) (by decide)
    have hm : hasKey (maintenanceFields o) "has_image" = false :=
      hasKey_maintenanceFields_eq_false o _ (by decide)
    have hb2 : hasKey (baseFields id o) "image_filename" = false := by
      simp [hasKey_baseFields]
    have hs2 : hasKey (sightingFields o) "image_filename" = false :=
      hasKey_sightingFields_eq_false o _ (by decide) (by decide) (by decide)
        (by decide) (by decide)
    have hi2 : hasKey (incidentFields o) "image_filename" = false :=
      hasKey_incidentFields_eq_false o _ (by decide) (by decide) (by decide)
    have hm2 : hasKey (maintenanceFields o) "image_filename" = false :=
      hasKey_maintenanceFields_eq_false o _ (by decide)
    have hcoord : hasKey (coordFields o) "image_filename" = false := by
      simp [hasKey_coordFields]
    refine ⟨hasKey_projectObs_image_path id o, ?_, ?_⟩
    · unfold projectObs
      simp only [List.append_assoc]
      rw [lookupVal_append_left_none _ _ _ hb,
          lookupVal_append_left_none _ _ _ hs,
          lookupVal_append_left_none _ _ _ hi,
          lookupVal_append_left_none _ _ _ hm]
      unfold imageFields
      simp only [himg, if_true, List.singleton_append, List.cons_append,
        lookupVal_cons]
      simp
    · unfold projectObs
      simp only [List.append_assoc]
      rw [lookupVal_append_left_none _ _ _ hb2,
          lookupVal_append_left_none _ _ _ hs2,
          lookupVal_append_left_none _ _ _ hi2,
          lookupVal_append_left_none _ _ _ hm2]
      unfold imageFields
      simp only [himg, if_true, List.singleton_append, List.cons_append,
        lookupVal_cons]
      cases hfn : o.image_filename with
      | none =>
        simp only [optField, List.nil_append, Option.map_none']
        simp [lookupVal_none_of_hasKey_false _ _ hcoord]
      | some f =>
        simp [optField, lookupVal_cons]

/-- C8: `isPoachingIncident` holds exactly for `Incident` records whose
`incident_type`, lowercased, contains one of the substrings "poach",
"illegal hunting", "snare", "trap"; any other category, or an Incident
matching none of the keywords, is classified false. -/
theorem c8_isPoachingIncident_spec (o : Obs) :
    isPoachingIncident o = true ↔
      o.category = "Incident" ∧
      ∃ kw ∈ (["poach", "illegal hunting", "snare", "trap"] : List String),
        ∃ pre post, (strLower (o.incident_type.getD "")).toList =
          pre ++ kw.toList ++ post := by
  unfold isPoachingIncident
  by_cases hc : o.category = "Incident"
  · simp [hc, List.any_eq_true, strIncludes_iff]
  · have hbne : (o.category != "Incident") = true := by
      simp [bne_iff_ne, hc]
    simp [hbne, hc]

/-- A saved observation that classifies as a poaching incident. -/
def obsPoach : Obs :=
  { category := "Incident", timestamp := "t1", synced := true
    user := none, animal := none, pride_name := none, leopard_name := none
    animal_activity := none, animal_age := none
    incident_type := some "Poaching - Carcass", poaching_type := some "Carcass"
    poached_animal := none, maintenance_type := none
    latitude := some 1, longitude := some 2
    image_path := none, image_filename := none }

/-- Witness for C8: the keyword decomposition of a concrete poaching
incident, produced by the characterisation. -/
theorem c8_witness :
    obsPoach.category = "Incident" ∧
    ∃ kw ∈ (["poach", "illegal hunting", "snare", "trap"] : List String),
      ∃ pre post, (strLower (obsPoach.incident_type.getD "")).toList =
        pre ++ kw.toList ++ post :=
  (c8_isPoachingIncident_spec obsPoach).mp (by decide)

/-- C6: every GeoJSON Point the program constructs puts longitude
first: the client capture feature's coordinates are
`[longitude, latitude]`, and every feature the fire-feed CSV parser
emits has coordinates `[lng, lat]` where `lng` and `lat` are the parsed
`longitude` and `latitude` columns of its row. -/
theorem c6_geojson_coordinate_order :
    (∀ loc : CaptureCoords, (createCaptureFeature loc).coordinates =
      [loc.longitude, loc.latitude]) ∧
    (∀ (pf : String → Option ℚ) (csv sensor : String) (f : FireFeature),
      f ∈ parseCSV pf csv sensor →
      ∃ props lat lng,
        f.properties = objInsert props "sensor" sensor ∧
        getNumProp pf props "latitude" = some lat ∧
        getNumProp pf props "longitude" = some lng ∧
        f.geometry.coordinates = [lng, lat]) := by
  refine ⟨fun loc => rfl, ?_⟩
  intro pf csv sensor f hf
  unfold parseCSV at hf
  cases hsp : strSplit (strTrim csv) '\n' with
  | nil =>
    rw [hsp] at hf
    simp at hf
  | cons headerLine rest =>
    rw [hsp] at hf
    cases hre : rest.isEmpty with
    | true =>
      simp [hre] at hf
    | false =>
      simp only [hre, Bool.false_eq_true, if_false] at hf
      rw [List.mem_filterMap] at hf
      obtain ⟨line, hline, hrow⟩ := hf
      unfold parseRow at hrow
      dsimp only at hrow
      cases hlen : ((strSplit line ',').length !=
          (strSplit headerLine ',').length) with
      | true =>
        rw [hlen] at hrow
        simp at hrow
      | false =>
        rw [hlen] at hrow
        simp only [Bool.false_eq_true, if_false] at hrow
        cases hlat : getNumProp pf
            (((strSplit headerLine ',').zip (strSplit line ',')).foldl
              (fun acc hv => objInsert acc (strTrim hv.1) (strTrim hv.2)) [])
            "latitude" with
        | none =>
          rw [hlat] at hrow
          simp at hrow
        | some lat =>
          rw [hlat] at hrow
          cases hlng : getNumProp pf
              (((strSplit headerLine ',').zip (strSplit line ',')).foldl
                (fun acc hv => objInsert acc (strTrim hv.1) (strTrim hv.2)) [])
              "longitude" with
          | none =>
            rw [hlng] at hrow
            simp at hrow
          | some lng =>
            rw [hlng] at hrow
            simp only [Option.some.injEq] at hrow
            subst hrow
            exact ⟨_, lat, lng, rfl, hlat, hlng, rfl⟩

/-- A stored sighting with coordinates and an image. -/
def obsLion : Obs :=
  { category := "Sighting", timestamp := "t2", synced := true
    user := some "u1", animal := some "Lion", pride_name := none
    leopard_name := none, animal_activity := none, animal_age := none
    incident_type := none, poaching_type := none, poached_animal := none
    maintenance_type := none, latitude := some 1, longitude := some 2
    image_path := some "observations/1_img.jpg"
    image_filename := some "img.jpg" }

/-- A stored maintenance record with no coordinates. -/
def obsNoGps : Obs :=
  { category := "Maintenance", timestamp := "t1", synced := true
    user := none, animal := none, pride_name := none, leopard_name := none
    animal_activity := none, animal_age := none, incident_type := none
    poaching_type := none, poached_animal := none
    maintenance_type := some "Fence repair", latitude := none
    longitude := none, image_path := none, image_filename := none }

/-- A store holding one coordinate-bearing and one coordinate-less
observation. -/
def dbMix : Db :=
  { observations := [("a", obsLion), ("b", obsNoGps)], users := [] }

/-- Witness for C4: on the mixed store, the returned record carries both
coordinates and exactly the one coordinate-bearing observation is
counted. -/
theorem c4_witness :
    (hasKey (projectObs "a" obsLion) "latitude" = true ∧
     hasKey (projectObs "a" obsLion) "longitude" = true) ∧
    (getObservations (some dbMix)).data.length =
      (dbMix.observations.filter
        (fun p => p.2.latitude.isSome && p.2.longitude.isSome)).length :=
  ⟨(c4_map_read_location_only dbMix).1 (projectObs "a" obsLion) (by decide),
   (c4_map_read_location_only dbMix).2.2⟩

/-- Witness for C10: the projection of the stored image-bearing sighting
hides `image_path` and exposes `has_image` and `image_filename`. -/
theorem c10_witness :
    hasKey (projectObs "a" obsLion) "image_path" = false ∧
    lookupVal (projectObs "a" obsLion) "has_image" = some (JVal.bool true) ∧
    lookupVal (projectObs "a" obsLion) "image_filename" =
      obsLion.image_filename.map JVal.str :=
  (c10_image_minimization dbMix).2 "a" obsLion (by decide)

/-- A concrete `parseFloat` for the CSV witness. -/
def pfW : String → Option ℚ :=
  fun s => if s == "1" then some 1 else if s == "2" then some 2 else none

/-- The feature the fire-feed parser emits for the witness CSV. -/
def fireF0 : FireFeature :=
  { type := "Feature"
    geometry := { type := "Point", coordinates := [2, 1] }
    properties := [("latitude", "1"), ("longitude", "2"), ("sensor", "X")] }

/-- Witness for C6 on a concrete two-line CSV: the emitted feature's
coordinates are `[longitude, latitude]`. -/
theorem c6_witness :
    ∃ props lat lng,
      fireF0.properties = objInsert props "sensor" "X" ∧
      getNumProp pfW props "latitude" = some lat ∧
      getNumProp pfW props "longitude" = some lng ∧
      fireF0.geometry.coordinates = [lng, lat] :=
  c6_geojson_coordinate_order.2 pfW "latitude,longitude\n1,2" "X" fireF0
    (by decide)

theorem pinGet_pinDelete (store : PinStore) (key : String) :
    pinGet (pinDelete store key) key = none := by
  unfold pinGet pinDelete
  have hf : (store.filter (fun p => p.1 != key)).find?
      (fun p => p.1 == key) = none := by
    rw [List.find?_eq_none]
    intro x hx hbeq
    have h2 := (List.mem_filter.mp hx).2
    exact (bne_iff_ne.mp h2) (beq_iff_eq.mp hbeq)
  simp [hf]

theorem pinGet_cons (k0 : String) (d0 : PinData)
    (tl : List (String × PinData)) (key : String) :
    pinGet ((k0, d0) :: tl) key =
      if (k0 == key) = true then some d0 else pinGet tl key := by
  by_cases hk : (k0 == key) = true <;> simp [pinGet, List.find?_cons, hk]

theorem pinBumpAttempts_cons (k0 : String) (d0 : PinData)
    (tl : List (String × PinData)) (key : String) :
    pinBumpAttempts ((k0, d0) :: tl) key =
      (if (k0 == key) = true then
        (k0, { d0 with attempts := d0.attempts + 1 })
      else (k0, d0)) :: pinBumpAttempts tl key := rfl

theorem pinGet_pinBumpAttempts (store : PinStore) (key : String)
    (pd : PinData) (h : pinGet store key = some pd) :
    pinGet (pinBumpAttempts store key) key =
      some { pd with attempts := pd.attempts + 1 } := by
  induction store with
  | nil => simp [pinGet] at h
  | cons hd tl ih =>
    obtain ⟨k0, d0⟩ := hd
    by_cases hk : (k0 == key) = true
    · rw [pinGet_cons, if_pos hk] at h
      have hpd : d0 = pd := by injection h
      rw [pinBumpAttempts_cons, if_pos hk, pinGet_cons, if_pos hk, hpd]
    · rw [pinGet_cons, if_neg hk] at h
      rw [pinBumpAttempts_cons, if_neg hk, pinGet_cons, if_neg hk]
      exact ih h

/-- C9: a successful PIN verification consumes the stored entry, so a
second verification of the same code is answered 400 with "PIN not
found or expired. Please request a new PIN."; a mismatched verification
increments the stored attempt counter and reports the attempts
remaining out of the budget of 5. -/
theorem c9_pin_single_use (hash : String → String)
    (tok : Except Unit String) (store : PinStore) (email pin : String)
    (now : Nat) (pd : PinData)
    (hemail : email.isEmpty = false) (hpin : pin.isEmpty = false)
    (hlook : pinGet store (strLower email) = some pd)
    (hexp : ¬(now - pd.timestamp > 15 * 60 * 1000))
    (hatt : ¬(pd.attempts ≥ 5)) :
    (∀ tokv, tok = Except.ok tokv → hash pin = pd.pin →
      (verifyPin hash tok store (some email) (some pin) now).1.status = 200 ∧
      pinGet (verifyPin hash tok store (some email) (some pin) now).2
        (strLower email) = none ∧
      (∀ (pin2 : String) (now2 : Nat) (tok2 : Except Unit String),
        pin2.isEmpty = false →
        (verifyPin hash tok2
          (verifyPin hash tok store (some email) (some pin) now).2
          (some email) (some pin2) now2).1 =
        { status := 400, success := false
          message := some "PIN not found or expired. Please request a new PIN."
          customToken := none, name := none })) ∧
    (hash pin ≠ pd.pin →
      (verifyPin hash tok store (some email) (some pin) now).1 =
        { status := 400, success := false
          message := some ("Invalid PIN. " ++
            toString (5 - (pd.attempts + 1)) ++ " attempts remaining.")
          customToken := none, name := none } ∧
      pinGet (verifyPin hash tok store (some email) (some pin) now).2
        (strLower email) =
        some { pd with attempts := pd.attempts + 1 }) := by
  have he : optTruthy (some email) = true := by simp [optTruthy, hemail]
  have hp : optTruthy (some pin) = true := by simp [optTruthy, hpin]
  constructor
  · intro tokv htok hmatch
    have hveq : verifyPin hash tok store (some email) (some pin) now =
        ({ status := 200, success := true, message := none
           customToken := some tokv, name := some pd.name },
         pinDelete store (strLower email)) := by
      unfold verifyPin
      simp [he, hp, hlook, hexp, hatt, hmatch, htok]
    rw [hveq]
    refine ⟨rfl, pinGet_pinDelete store (strLower email), ?_⟩
    intro pin2 now2 tok2 hpin2
    have hp2 : optTruthy (some pin2) = true := by simp [optTruthy, hpin2]
    unfold verifyPin
    simp [he, hp2, pinGet_pinDelete store (strLower email)]
  · intro hmismatch
    have hveq : verifyPin hash tok store (some email) (some pin) now =
        ({ status := 400, success := false
           message := some ("Invalid PIN. " ++
             toString (5 - (pd.attempts + 1)) ++ " attempts remaining.")
           customToken := none, name := none },
         pinBumpAttempts store (strLower email)) := by
      unfold verifyPin
      simp [he, hp, hlook, hexp, hatt, hmismatch]
    rw [hveq]
    exact ⟨rfl, pinGet_pinBumpAttempts store (strLower email) pd hlook⟩

/-- The hash used by the C9 witness. -/
def hashW : String → String := fun s => s ++ "#"

/-- The pin store of the C9 witness: one live entry for `a@b.c`. -/
def storeW : PinStore :=
  [("a@b.c", { pin := "1234#", name := "Al", timestamp := 0, attempts := 1 })]

/-- Witness for C9: a correct verification succeeds, consumes the entry,
and an immediate second verification of the same code gets the
"PIN not found or expired" 400 response. -/
theorem c9_witness :
    (verifyPin hashW (Except.ok "tok") storeW (some "A@b.c")
      (some "1234") 1000).1.status = 200 ∧
    pinGet (verifyPin hashW (Except.ok "tok") storeW (some "A@b.c")
      (some "1234") 1000).2 (strLower "A@b.c") = none ∧
    (verifyPin hashW (Except.ok "tok2")
      (verifyPin hashW (Except.ok "tok") storeW (some "A@b.c")
        (some "1234") 1000).2
      (some "A@b.c") (some "1234") 2000).1 =
      { status := 400, success := false
        message := some "PIN not found or expired. Please request a new PIN."
        customToken := none, name := none } := by
  have h := (c9_pin_single_use hashW (Except.ok "tok") storeW "A@b.c" "1234"
    1000 { pin := "1234#", name := "Al", timestamp := 0, attempts := 1 }
    rfl rfl (by decide) (by decide) (by decide)).1 "tok" rfl rfl
  exact ⟨h.1, h.2.1, h.2.2 "1234" 2000 (Except.ok "tok2") rfl⟩

end WildlifeTracker
